import Mathlib

/-!
Verification of the folder-structure analysis tool `analyze_specification.py`.

The Python code is shallowly embedded: Python strings are Lean `String`s
(reasoned about through their `List Char` contents, modelling the ASCII
fragment exercised by the tool), Python's substring operator `in` is list
infix on the character lists, `str.split(sep)` for a one-character separator
is `splitOnChar`, and `os.path` functions are modelled for the
slash-separated, already-normalised paths the script builds (paths produced
by `os.path.join` of the base path and walk components, hence without
repeated or trailing separators).
-/

/-- Rebuild a `String` from its character list. -/
def ofChars (l : List Char) : String := ⟨l⟩

theorem ofChars_toList (s : String) : ofChars s.toList = s := rfl

theorem toList_ofChars (l : List Char) : (ofChars l).toList = l := rfl

theorem toList_append (a b : String) : (a ++ b).toList = a.toList ++ b.toList := by
  cases a; cases b; rfl

/-- Python `pat in s` (substring containment). -/
def strContains (s pat : String) : Bool := decide (pat.toList <:+: s.toList)

/-- Python `s.lower()` (ASCII model). -/
def pyLower (s : String) : String := ofChars (s.toList.map Char.toLower)

/-- Python `s.endswith(suf)`. -/
def pyEndsWith (s suf : String) : Bool := decide (suf.toList <:+ s.toList)

/-- Python `s.split(sep)` for a single-character separator, on character
lists: splits at every occurrence of `sep`, keeping empty parts. -/
def splitOnChar (sep : Char) : List Char → List (List Char)
  | [] => [[]]
  | c :: cs =>
    match splitOnChar sep cs with
    | [] => [[]]
    | h :: t => if c = sep then [] :: h :: t else (c :: h) :: t

/-- Python `s.split(sep)` for a single-character separator. -/
def pySplit (s : String) (sep : Char) : List String :=
  (splitOnChar sep s.toList).map ofChars

/-- Model of `os.path.basename` for slash-separated paths. -/
def basename (p : String) : String := (pySplit p '/').getLastD ""

/-- Model of `os.path.dirname` for normalised slash-separated paths. -/
def dirname (p : String) : String :=
  let parts := pySplit p '/'
  if parts.length ≤ 1 then "" else String.intercalate "/" parts.dropLast

/-- Model of `os.path.relpath folder base` for the only call pattern the script
uses: `folder` lies strictly below `base`, so the result is `folder` with
the leading `base ++ "/"` removed. -/
def relpathUnder (folder base : String) : String :=
  if (base.toList ++ ['/']) <+: folder.toList then
    ofChars (folder.toList.drop (base.toList ++ ['/']).length)
  else folder

theorem relpathUnder_append (base rel : String) :
    relpathUnder (base ++ "/" ++ rel) base = rel := by
  unfold relpathUnder
  have h : (base ++ "/" ++ rel).toList = (base.toList ++ ['/']) ++ rel.toList := by
    rw [toList_append, toList_append]; rfl
  rw [h, if_pos (List.prefix_append _ _), List.drop_left, ofChars_toList]

/-- Source function `is_management_plane` (analyze_specification.py, lines 40-52): a
TypeSpec project or Swagger file is management plane when the folder
name (the path's last component) contains `.Management`, or the full
path contains the substring `resource-manager`. -/
def is_management_plane (project_or_file_path : String) : Bool :=
  let folder_name := basename project_or_file_path
  if strContains folder_name ".Management" then true
  else if strContains project_or_file_path "resource-manager" then true
  else false

/-- Source function `is_pascal_case` (lines 75-80): non-empty, first character upper case,
all characters alphanumeric or a dot. -/
def is_pascal_case (s : String) : Bool :=
  match s.toList with
  | [] => false
  | c :: cs => c.isUpper && (c :: cs).all fun ch => ch.isAlphanum || ch == '.'

/-- Source function `is_valid_namespace_pattern` (lines 82-89): an `A.B` pattern whose two
dot-separated parts are PascalCase. -/
def is_valid_namespace_pattern (ns : String) : Bool :=
  if !(strContains ns ".") then false
  else
    let parts := pySplit ns '.'
    if parts.length ≠ 2 then false
    else parts.all fun p => is_pascal_case p && !(strContains p ".")

/-- Source function `is_valid_service_name` (lines 91-93): only letters, digits, hyphens. -/
def is_valid_service_name (service_name : String) : Bool :=
  service_name.toList.all fun c => c.isAlphanum || c == '-'

example : is_management_plane "a/b/resource-manager/c" = true := by decide
example : is_management_plane "a/Foo.Management" = true := by decide
example : is_management_plane "a/data-plane/c" = false := by decide
example : is_valid_namespace_pattern "Microsoft.Compute" = true := by decide
example : is_valid_namespace_pattern "microsoft.compute" = false := by decide
example : is_valid_namespace_pattern "Microsoft.Compute.Extra" = false := by decide
example : is_valid_service_name "batch-ai" = true := by decide
example : is_valid_service_name "batch_ai" = false := by decide

/-- Reason string for a management-plane TypeSpec shape mismatch (line 115). -/
def mgmtShapeReason (rel_path : String) : String :=
  "Non-compliant management plane TypeSpec structure: " ++ rel_path ++
    " (must be exactly specification/{orgName}/resource-manager/{namespaceName}/{serviceName})"

/-- Reason string for a data-plane TypeSpec shape mismatch (line 127). -/
def dataShapeReason (rel_path : String) : String :=
  "Non-compliant data plane TypeSpec structure: " ++ rel_path ++
    " (must be exactly specification/{orgName}/data-plane/{serviceName})"

/-- Reason string for a namespace-pattern mismatch (lines 107, 139). -/
def namespaceReason (namespace_name : String) : String :=
  "Non-compliant namespace pattern '" ++ namespace_name ++
    "': should be A.B format with PascalCase (e.g., Microsoft.Compute)"

/-- Reason string for a service-name mismatch (lines 111, 123, 143, 154). -/
def serviceNameReason (service_name : String) : String :=
  "Non-compliant service name '" ++ service_name ++
    "': should not contain special characters"

/-- Source function `check_folder_structure_v2_compliance` (lines 54-164).  The filesystem
fact `has_typespec` (in the source an `os.path.exists` test for
`tspconfig.yaml` / `main.tsp` inside the folder) is passed in by the
caller. -/
def check_folder_structure_v2_compliance
    (folder_path spec_base_path : String) (has_typespec : Bool) : Bool × String :=
  let rel_path := relpathUnder folder_path spec_base_path
  let path_parts := pySplit rel_path '/'
  if path_parts.length < 2 then
    (false, "Path too short: " ++ rel_path)
  else if path_parts.getD 0 "" = "common-types" then
    (true, "Shared/common folder - compliant")
  else
    let folder_name := basename folder_path
    let is_stable_preview_folder :=
      pyLower folder_name = "stable" ∨ pyLower folder_name = "preview"
    if has_typespec then
      if is_management_plane folder_path then
        if path_parts.length = 4 ∧ path_parts.getD 1 "" = "resource-manager" then
          let namespace_name := path_parts.getD 2 ""
          let service_name := path_parts.getD 3 ""
          if !(is_valid_namespace_pattern namespace_name) then
            (false, namespaceReason namespace_name)
          else if !(is_valid_service_name service_name) then
            (false, serviceNameReason service_name)
          else
            (true, "Compliant management plane TypeSpec project root")
        else
          (false, mgmtShapeReason rel_path)
      else
        if path_parts.length = 3 ∧ path_parts.getD 1 "" = "data-plane" then
          let service_name := path_parts.getD 2 ""
          if !(is_valid_service_name service_name) then
            (false, serviceNameReason service_name)
          else
            (true, "Compliant data plane TypeSpec project root")
        else
          (false, dataShapeReason rel_path)
    else if is_stable_preview_folder then
      if strContains rel_path "resource-manager" then
        if path_parts.length = 5 ∧ path_parts.getD 1 "" = "resource-manager" ∧
            path_parts.getD 4 "" = folder_name then
          let namespace_name := path_parts.getD 2 ""
          let service_name := path_parts.getD 3 ""
          if !(is_valid_namespace_pattern namespace_name) then
            (false, namespaceReason namespace_name)
          else if !(is_valid_service_name service_name) then
            (false, serviceNameReason service_name)
          else
            (true, "Compliant management plane Swagger " ++ folder_name ++ " folder")
        else
          (false, "Non-compliant management plane Swagger " ++ folder_name ++
            " structure: " ++ rel_path ++
            " (must be exactly specification/{orgName}/resource-manager/{namespaceName}/{serviceName}/" ++
            folder_name ++ ")")
      else if strContains rel_path "data-plane" then
        if path_parts.length = 4 ∧ path_parts.getD 1 "" = "data-plane" ∧
            path_parts.getD 3 "" = folder_name then
          let service_name := path_parts.getD 2 ""
          if !(is_valid_service_name service_name) then
            (false, serviceNameReason service_name)
          else
            (true, "Compliant data plane Swagger " ++ folder_name ++ " folder")
        else
          (false, "Non-compliant data plane Swagger " ++ folder_name ++
            " structure: " ++ rel_path ++
            " (must be exactly specification/{orgName}/data-plane/{serviceName}/" ++
            folder_name ++ ")")
      else
        (false, "Swagger " ++ folder_name ++
          " folder not in resource-manager or data-plane structure: " ++ rel_path)
    else
      (false, "Not a TypeSpec project root or Swagger stable/preview folder: " ++ rel_path)

example :
    (check_folder_structure_v2_compliance
      ("specification" ++ "/" ++ "contoso/resource-manager/Microsoft.Contoso/widgets")
      "specification" true).1 = true := by decide
example :
    (check_folder_structure_v2_compliance
      ("specification" ++ "/" ++ "contoso/resource-manager/microsoft.contoso/widgets")
      "specification" true) =
      (false, namespaceReason "microsoft.contoso") := by decide
example :
    (check_folder_structure_v2_compliance
      ("specification" ++ "/" ++ "contoso/data-plane/widgets")
      "specification" true).1 = true := by decide
example :
    (check_folder_structure_v2_compliance
      ("specification" ++ "/" ++ "contoso/data-plane/widgets/v1")
      "specification" true).1 = false := by decide
example :
    (check_folder_structure_v2_compliance
      ("specification" ++ "/" ++ "common-types") "specification" false) =
      (false, "Path too short: common-types") := by decide
example :
    (check_folder_structure_v2_compliance
      ("specification" ++ "/" ++ "common-types/resource-manager/v3")
      "specification" false) = (true, "Shared/common folder - compliant") := by decide

/-- Two string concatenations differ when their constant left parts differ
within the first `k` characters. -/
theorem concat3_ne_of_take_ne (c1 c2 a b s1 s2 : String) (k : Nat)
    (h1 : k ≤ c1.toList.length) (h2 : k ≤ c2.toList.length)
    (hne : c1.toList.take k ≠ c2.toList.take k) :
    c1 ++ a ++ s1 ≠ c2 ++ b ++ s2 := by
  intro e
  apply hne
  have h3 := congrArg (fun s : String => s.toList.take k) e
  simp only [toList_append, List.append_assoc] at h3
  rwa [List.take_append_of_le_length h1, List.take_append_of_le_length h2] at h3

theorem mgmtShapeReason_ne_namespaceReason (a b : String) :
    mgmtShapeReason a ≠ namespaceReason b := by
  unfold mgmtShapeReason namespaceReason
  exact concat3_ne_of_take_ne _ _ _ _ _ _ 15 (by decide) (by decide) (by decide)

theorem mgmtShapeReason_ne_serviceNameReason (a b : String) :
    mgmtShapeReason a ≠ serviceNameReason b := by
  unfold mgmtShapeReason serviceNameReason
  exact concat3_ne_of_take_ne _ _ _ _ _ _ 15 (by decide) (by decide) (by decide)

theorem namespaceReason_ne_serviceNameReason (a b : String) :
    namespaceReason a ≠ serviceNameReason b := by
  unfold namespaceReason serviceNameReason
  exact concat3_ne_of_take_ne _ _ _ _ _ _ 15 (by decide) (by decide) (by decide)

/-- Behaviour of the compliance check on a management-plane TypeSpec
project root that is neither too short nor under `common-types`. -/
theorem check_rule1_mgmt (base rel : String)
    (hmp : is_management_plane (base ++ "/" ++ rel) = true)
    (hct : ¬ (pySplit rel '/').getD 0 "" = "common-types")
    (h2 : ¬ (pySplit rel '/').length < 2) :
    check_folder_structure_v2_compliance (base ++ "/" ++ rel) base true =
      if (pySplit rel '/').length = 4 ∧ (pySplit rel '/').getD 1 "" = "resource-manager" then
        if !(is_valid_namespace_pattern ((pySplit rel '/').getD 2 "")) then
          (false, namespaceReason ((pySplit rel '/').getD 2 ""))
        else if !(is_valid_service_name ((pySplit rel '/').getD 3 "")) then
          (false, serviceNameReason ((pySplit rel '/').getD 3 ""))
        else
          (true, "Compliant management plane TypeSpec project root")
      else
        (false, mgmtShapeReason rel) := by
  simp only [check_folder_structure_v2_compliance, relpathUnder_append]
  rw [if_neg h2, if_neg hct, if_pos trivial, if_pos hmp]

/-- Behaviour of the compliance check on a data-plane TypeSpec project
root that is neither too short nor under `common-types`. -/
theorem check_rule1_data (base rel : String)
    (hmp : is_management_plane (base ++ "/" ++ rel) = false)
    (hct : ¬ (pySplit rel '/').getD 0 "" = "common-types")
    (h2 : ¬ (pySplit rel '/').length < 2) :
    check_folder_structure_v2_compliance (base ++ "/" ++ rel) base true =
      if (pySplit rel '/').length = 3 ∧ (pySplit rel '/').getD 1 "" = "data-plane" then
        if !(is_valid_service_name ((pySplit rel '/').getD 2 "")) then
          (false, serviceNameReason ((pySplit rel '/').getD 2 ""))
        else
          (true, "Compliant data plane TypeSpec project root")
      else
        (false, dataShapeReason rel) := by
  simp only [check_folder_structure_v2_compliance, relpathUnder_append]
  rw [if_neg h2, if_neg hct, if_pos trivial, if_neg (by simp [hmp])]

/-- C1 (corrected): the plane classifier returns Management exactly when
the path's last segment contains `.Management` or the full path contains
`resource-manager` as a substring (not necessarily as a whole path
segment); it is a total function of the string. -/
theorem C1_amended_plane_classifier (p : String) :
    is_management_plane p = true ↔
      (".Management".toList <:+: (basename p).toList ∨
       "resource-manager".toList <:+: p.toList) := by
  simp only [is_management_plane, strContains]
  by_cases h1 : ".Management".toList <:+: (basename p).toList
  · simp [h1]
  · by_cases h2 : "resource-manager".toList <:+: p.toList <;> simp [h1, h2]

/-- C1 counterexample: on `xresource-managery` the classifier returns
Management although `resource-manager` is not a path segment of the path
and the last segment does not contain `.Management`. -/
theorem C1_counterexample :
    is_management_plane "xresource-managery" = true ∧
    ¬ (".Management".toList <:+: (basename "xresource-managery").toList ∨
       "resource-manager" ∈ pySplit "xresource-managery" '/') := by decide

/-- C2 (amended): for a project-root directory classified management
plane whose first path segment is not `common-types`, the compliance
check passes exactly when the relative path has 4 segments, the second is
`resource-manager`, the third passes the namespace pattern and the fourth
the service-name predicate; each of the three failure causes produces its
own reason string and the three reason families are pairwise distinct;
the path `contoso/resource-manager/Microsoft.Contoso/widgets` is judged
compliant. -/
theorem C2_amended_mgmt_project_compliance (base rel : String)
    (hmp : is_management_plane (base ++ "/" ++ rel) = true)
    (hct : ¬ (pySplit rel '/').getD 0 "" = "common-types") :
    ((check_folder_structure_v2_compliance (base ++ "/" ++ rel) base true).1 = true ↔
      ((pySplit rel '/').length = 4 ∧
       (pySplit rel '/').getD 1 "" = "resource-manager" ∧
       is_valid_namespace_pattern ((pySplit rel '/').getD 2 "") = true ∧
       is_valid_service_name ((pySplit rel '/').getD 3 "") = true)) ∧
    (2 ≤ (pySplit rel '/').length →
      ¬ ((pySplit rel '/').length = 4 ∧ (pySplit rel '/').getD 1 "" = "resource-manager") →
      (check_folder_structure_v2_compliance (base ++ "/" ++ rel) base true).2 =
        mgmtShapeReason rel) ∧
    ((pySplit rel '/').length = 4 →
      (pySplit rel '/').getD 1 "" = "resource-manager" →
      is_valid_namespace_pattern ((pySplit rel '/').getD 2 "") = false →
      (check_folder_structure_v2_compliance (base ++ "/" ++ rel) base true).2 =
        namespaceReason ((pySplit rel '/').getD 2 "")) ∧
    ((pySplit rel '/').length = 4 →
      (pySplit rel '/').getD 1 "" = "resource-manager" →
      is_valid_namespace_pattern ((pySplit rel '/').getD 2 "") = true →
      is_valid_service_name ((pySplit rel '/').getD 3 "") = false →
      (check_folder_structure_v2_compliance (base ++ "/" ++ rel) base true).2 =
        serviceNameReason ((pySplit rel '/').getD 3 "")) ∧
    (∀ a b, mgmtShapeReason a ≠ namespaceReason b) ∧
    (∀ a b, mgmtShapeReason a ≠ serviceNameReason b) ∧
    (∀ a b, namespaceReason a ≠ serviceNameReason b) ∧
    (check_folder_structure_v2_compliance
      ("specification" ++ "/" ++ "contoso/resource-manager/Microsoft.Contoso/widgets")
      "specification" true).1 = true := by
  by_cases hlen : (pySplit rel '/').length < 2
  · have hts : check_folder_structure_v2_compliance (base ++ "/" ++ rel) base true =
        (false, "Path too short: " ++ rel) := by
      simp only [check_folder_structure_v2_compliance, relpathUnder_append]
      rw [if_pos hlen]
    refine ⟨?_, ?_, ?_, ?_, mgmtShapeReason_ne_namespaceReason,
      mgmtShapeReason_ne_serviceNameReason, namespaceReason_ne_serviceNameReason, by decide⟩
    · rw [hts]
      exact iff_of_false Bool.false_ne_true (fun h => absurd h.1 (by omega))
    · intro hg _; omega
    · intro h4 _ _; omega
    · intro h4 _ _ _; omega
  · have hkey := check_rule1_mgmt base rel hmp hct hlen
    by_cases hshape : (pySplit rel '/').length = 4 ∧
        (pySplit rel '/').getD 1 "" = "resource-manager"
    · by_cases hns : is_valid_namespace_pattern ((pySplit rel '/').getD 2 "") = true
      · by_cases hsvc : is_valid_service_name ((pySplit rel '/').getD 3 "") = true
        · rw [if_pos hshape, if_neg (by rw [hns]; decide),
            if_neg (by rw [hsvc]; decide)] at hkey
          refine ⟨?_, ?_, ?_, ?_, mgmtShapeReason_ne_namespaceReason,
            mgmtShapeReason_ne_serviceNameReason, namespaceReason_ne_serviceNameReason, by decide⟩
          · rw [hkey]
            exact iff_of_true rfl ⟨hshape.1, hshape.2, hns, hsvc⟩
          · intro _ hc; exact absurd hshape hc
          · intro _ _ hf; rw [hns] at hf; exact Bool.noConfusion hf
          · intro _ _ _ hf; rw [hsvc] at hf; exact Bool.noConfusion hf
        · have hsvc0 : is_valid_service_name ((pySplit rel '/').getD 3 "") = false := by
            cases h : is_valid_service_name ((pySplit rel '/').getD 3 "")
            · rfl
            · exact absurd h hsvc
          rw [if_pos hshape, if_neg (by rw [hns]; decide),
            if_pos (by rw [hsvc0]; decide)] at hkey
          refine ⟨?_, ?_, ?_, ?_, mgmtShapeReason_ne_namespaceReason,
            mgmtShapeReason_ne_serviceNameReason, namespaceReason_ne_serviceNameReason, by decide⟩
          · rw [hkey]
            exact iff_of_false Bool.false_ne_true (fun h => absurd h.2.2.2 hsvc)
          · intro _ hc; exact absurd hshape hc
          · intro _ _ hf; rw [hns] at hf; exact Bool.noConfusion hf
          · intro _ _ _ _; rw [hkey]
      · have hns0 : is_valid_namespace_pattern ((pySplit rel '/').getD 2 "") = false := by
          cases h : is_valid_namespace_pattern ((pySplit rel '/').getD 2 "")
          · rfl
          · exact absurd h hns
        rw [if_pos hshape, if_pos (by rw [hns0]; decide)] at hkey
        refine ⟨?_, ?_, ?_, ?_, mgmtShapeReason_ne_namespaceReason,
          mgmtShapeReason_ne_serviceNameReason, namespaceReason_ne_serviceNameReason, by decide⟩
        · rw [hkey]
          exact iff_of_false Bool.false_ne_true (fun h => absurd h.2.2.1 hns)
        · intro _ hc; exact absurd hshape hc
        · intro _ _ _; rw [hkey]
        · intro _ _ hf _; exact absurd hf hns
    · rw [if_neg hshape] at hkey
      refine ⟨?_, ?_, ?_, ?_, mgmtShapeReason_ne_namespaceReason,
        mgmtShapeReason_ne_serviceNameReason, namespaceReason_ne_serviceNameReason, by decide⟩
      · rw [hkey]
        exact iff_of_false Bool.false_ne_true (fun h => absurd ⟨h.1, h.2.1⟩ hshape)
      · intro _ _; rw [hkey]
      · intro h4 h5 _; exact absurd ⟨h4, h5⟩ hshape
      · intro h4 h5 _ _; exact absurd ⟨h4, h5⟩ hshape

/-- C2 witness: a concrete management-plane project root outside
`common-types` on which the amended equivalence evaluates. -/
theorem C2_witness :
    is_management_plane
      ("specification" ++ "/" ++ "contoso/resource-manager/Microsoft.Contoso/widgets") = true ∧
    ((check_folder_structure_v2_compliance
      ("specification" ++ "/" ++ "contoso/resource-manager/Microsoft.Contoso/widgets")
      "specification" true).1 = true ↔
      ((pySplit "contoso/resource-manager/Microsoft.Contoso/widgets" '/').length = 4 ∧
       (pySplit "contoso/resource-manager/Microsoft.Contoso/widgets" '/').getD 1 "" =
         "resource-manager" ∧
       is_valid_namespace_pattern
         ((pySplit "contoso/resource-manager/Microsoft.Contoso/widgets" '/').getD 2 "") = true ∧
       is_valid_service_name
         ((pySplit "contoso/resource-manager/Microsoft.Contoso/widgets" '/').getD 3 "") = true)) :=
  ⟨by decide,
   (C2_amended_mgmt_project_compliance "specification"
      "contoso/resource-manager/Microsoft.Contoso/widgets" (by decide) (by decide)).1⟩

/-- C2 counterexample: `common-types/resource-manager` as a management
plane project root is judged compliant by the shared-folder rule although
its relative path does not have 4 segments, so the claimed equivalence
fails there. -/
theorem C2_counterexample :
    is_management_plane ("specification" ++ "/" ++ "common-types/resource-manager") = true ∧
    (check_folder_structure_v2_compliance
      ("specification" ++ "/" ++ "common-types/resource-manager") "specification" true).1 = true ∧
    ¬ (pySplit "common-types/resource-manager" '/').length = 4 := by decide

/-- C3 (amended): for a project-root directory classified data plane
whose first path segment is not `common-types`, the compliance check
passes exactly when the relative path has 3 segments, the second is
`data-plane`, and the third passes the service-name predicate;
`contoso/data-plane/widgets` is judged compliant and
`contoso/data-plane/widgets/v1` non-compliant. -/
theorem C3_amended_data_project_compliance (base rel : String)
    (hmp : is_management_plane (base ++ "/" ++ rel) = false)
    (hct : ¬ (pySplit rel '/').getD 0 "" = "common-types") :
    ((check_folder_structure_v2_compliance (base ++ "/" ++ rel) base true).1 = true ↔
      ((pySplit rel '/').length = 3 ∧
       (pySplit rel '/').getD 1 "" = "data-plane" ∧
       is_valid_service_name ((pySplit rel '/').getD 2 "") = true)) ∧
    (check_folder_structure_v2_compliance
      ("specification" ++ "/" ++ "contoso/data-plane/widgets") "specification" true).1 = true ∧
    (check_folder_structure_v2_compliance
      ("specification" ++ "/" ++ "contoso/data-plane/widgets/v1") "specification" true).1 =
      false := by
  refine ⟨?_, by decide, by decide⟩
  by_cases hlen : (pySplit rel '/').length < 2
  · have hts : check_folder_structure_v2_compliance (base ++ "/" ++ rel) base true =
        (false, "Path too short: " ++ rel) := by
      simp only [check_folder_structure_v2_compliance, relpathUnder_append]
      rw [if_pos hlen]
    rw [hts]
    exact iff_of_false Bool.false_ne_true (fun h => absurd h.1 (by omega))
  · have hkey := check_rule1_data base rel hmp hct hlen
    by_cases hshape : (pySplit rel '/').length = 3 ∧
        (pySplit rel '/').getD 1 "" = "data-plane"
    · by_cases hsvc : is_valid_service_name ((pySplit rel '/').getD 2 "") = true
      · rw [if_pos hshape, if_neg (by rw [hsvc]; decide)] at hkey
        rw [hkey]
        exact iff_of_true rfl ⟨hshape.1, hshape.2, hsvc⟩
      · have hsvc0 : is_valid_service_name ((pySplit rel '/').getD 2 "") = false := by
          cases h : is_valid_service_name ((pySplit rel '/').getD 2 "")
          · rfl
          · exact absurd h hsvc
        rw [if_pos hshape, if_pos (by rw [hsvc0]; decide)] at hkey
        rw [hkey]
        exact iff_of_false Bool.false_ne_true (fun h => absurd h.2.2 hsvc)
    · rw [if_neg hshape] at hkey
      rw [hkey]
      exact iff_of_false Bool.false_ne_true (fun h => absurd ⟨h.1, h.2.1⟩ hshape)

/-- C3 witness: a concrete data-plane project root outside `common-types`
on which the amended equivalence evaluates. -/
theorem C3_witness :
    is_management_plane ("specification" ++ "/" ++ "contoso/data-plane/widgets") = false ∧
    ((check_folder_structure_v2_compliance
      ("specification" ++ "/" ++ "contoso/data-plane/widgets") "specification" true).1 = true ↔
      ((pySplit "contoso/data-plane/widgets" '/').length = 3 ∧
       (pySplit "contoso/data-plane/widgets" '/').getD 1 "" = "data-plane" ∧
       is_valid_service_name ((pySplit "contoso/data-plane/widgets" '/').getD 2 "") = true)) :=
  ⟨by decide,
   (C3_amended_data_project_compliance "specification" "contoso/data-plane/widgets"
      (by decide) (by decide)).1⟩

/-- C3 counterexample: `common-types/x` as a data-plane project root is
judged compliant by the shared-folder rule although its relative path
does not have 3 segments, so the claimed equivalence fails there. -/
theorem C3_counterexample :
    is_management_plane ("specification" ++ "/" ++ "common-types/x") = false ∧
    (check_folder_structure_v2_compliance
      ("specification" ++ "/" ++ "common-types/x") "specification" true).1 = true ∧
    ¬ (pySplit "common-types/x" '/').length = 3 := by decide

/-- C4 (amended): a path whose first segment relative to the root is
`common-types` is judged compliant with the shared-folder reason only
when it also has at least 2 segments: the path-too-short rule is
evaluated before the common-types rule. -/
theorem C4_amended_common_types_rule (folder base : String) (ht : Bool)
    (hct : (pySplit (relpathUnder folder base) '/').getD 0 "" = "common-types")
    (hlen : 2 ≤ (pySplit (relpathUnder folder base) '/').length) :
    check_folder_structure_v2_compliance folder base ht =
      (true, "Shared/common folder - compliant") := by
  simp only [check_folder_structure_v2_compliance]
  rw [if_neg (by omega), if_pos hct]

/-- C4 witness: a two-segment `common-types` path is judged compliant
with the shared-folder reason, for either value of the project-root
fact. -/
theorem C4_witness :
    (pySplit (relpathUnder ("specification" ++ "/" ++ "common-types/v3")
      "specification") '/').getD 0 "" = "common-types" ∧
    2 ≤ (pySplit (relpathUnder ("specification" ++ "/" ++ "common-types/v3")
      "specification") '/').length ∧
    check_folder_structure_v2_compliance ("specification" ++ "/" ++ "common-types/v3")
      "specification" false = (true, "Shared/common folder - compliant") :=
  ⟨by decide, by decide,
   C4_amended_common_types_rule ("specification" ++ "/" ++ "common-types/v3") "specification"
     false (by decide) (by decide)⟩

/-- C4 counterexample: the one-segment path `common-types` has first
segment `common-types` but the check returns the path-too-short failure,
because the length rule is evaluated first. -/
theorem C4_counterexample :
    (pySplit (relpathUnder ("specification" ++ "/" ++ "common-types")
      "specification") '/').getD 0 "" = "common-types" ∧
    check_folder_structure_v2_compliance ("specification" ++ "/" ++ "common-types")
      "specification" false = (false, "Path too short: common-types") := by decide

/-- Number of occurrences of a character in a character list. -/
def countChar (c : Char) : List Char → Nat
  | [] => 0
  | x :: xs => (if x = c then 1 else 0) + countChar c xs

theorem splitOnChar_ne_nil (sep : Char) (l : List Char) : splitOnChar sep l ≠ [] := by
  cases l with
  | nil => simp [splitOnChar]
  | cons c cs =>
    simp only [splitOnChar]
    cases h : splitOnChar sep cs with
    | nil => simp
    | cons hd tl => by_cases hc : c = sep <;> simp [hc]

theorem length_splitOnChar (sep : Char) (l : List Char) :
    (splitOnChar sep l).length = countChar sep l + 1 := by
  induction l with
  | nil => rfl
  | cons c cs ih =>
    simp only [splitOnChar, countChar]
    cases h : splitOnChar sep cs with
    | nil => exact absurd h (splitOnChar_ne_nil sep cs)
    | cons hd tl =>
      rw [h] at ih
      by_cases hc : c = sep
      · simp only [if_pos hc, List.length_cons] at ih ⊢
        omega
      · simp only [if_neg hc, List.length_cons] at ih ⊢
        omega

theorem mem_splitOnChar_not_mem (sep : Char) (l : List Char) :
    ∀ p ∈ splitOnChar sep l, sep ∉ p := by
  induction l with
  | nil =>
    intro p hp
    simp only [splitOnChar, List.mem_singleton] at hp
    simp [hp]
  | cons c cs ih =>
    intro p hp
    cases h : splitOnChar sep cs with
    | nil => exact absurd h (splitOnChar_ne_nil sep cs)
    | cons hd tl =>
      simp only [splitOnChar, h] at hp
      by_cases hc : c = sep
      · rw [if_pos hc] at hp
        rcases List.mem_cons.mp hp with h1 | h1
        · subst h1; simp
        · exact ih p (by rw [h]; exact h1)
      · rw [if_neg hc] at hp
        rcases List.mem_cons.mp hp with h1 | h1
        · subst h1
          intro hmem
          rcases List.mem_cons.mp hmem with h2 | h2
          · exact hc h2.symm
          · exact ih hd (by rw [h]; exact List.mem_cons_self hd tl) h2
        · exact ih p (by rw [h]; exact List.mem_cons_of_mem hd h1)

theorem mem_iff_countChar_pos (c : Char) (l : List Char) : c ∈ l ↔ 0 < countChar c l := by
  induction l with
  | nil => simp [countChar]
  | cons x xs ih =>
    simp only [countChar, List.mem_cons]
    by_cases hx : x = c
    · rw [if_pos hx]
      constructor
      · intro _; omega
      · intro _; exact Or.inl hx.symm
    · rw [if_neg hx]
      simp only [Nat.zero_add]
      constructor
      · rintro (h1 | h1)
        · exact absurd h1.symm hx
        · exact ih.mp h1
      · intro h1; exact Or.inr (ih.mpr h1)

theorem singleton_infix_iff_mem {α : Type} (a : α) (l : List α) : [a] <:+: l ↔ a ∈ l := by
  constructor
  · rintro ⟨s, t, rfl⟩; simp
  · intro h
    obtain ⟨s, t, rfl⟩ := List.append_of_mem h
    exact ⟨s, t, by simp⟩

/-- The namespace predicate, characterised by the conditions the source
tests in order. -/
theorem namespace_pattern_code_iff (s : String) :
    is_valid_namespace_pattern s = true ↔
      (strContains s "." = true ∧ (pySplit s '.').length = 2 ∧
       ∀ p ∈ pySplit s '.', is_pascal_case p = true ∧ strContains p "." = false) := by
  unfold is_valid_namespace_pattern
  by_cases h1 : strContains s "." = true
  · rw [if_neg (by rw [h1]; decide)]
    by_cases h2 : (pySplit s '.').length ≠ 2
    · rw [if_pos h2]
      exact iff_of_false Bool.false_ne_true (fun h => absurd h.2.1 h2)
    · rw [if_neg h2]
      push_neg at h2
      rw [List.all_eq_true]
      constructor
      · intro h
        refine ⟨h1, h2, fun p hp => ?_⟩
        have hpb := h p hp
        rw [Bool.and_eq_true] at hpb
        rcases hpb with ⟨ha, hb⟩
        refine ⟨ha, ?_⟩
        cases hcc : strContains p "."
        · rfl
        · rw [hcc] at hb; exact Bool.noConfusion hb
      · rintro ⟨-, -, hall⟩ p hp
        rcases hall p hp with ⟨ha, hb⟩
        rw [Bool.and_eq_true]
        exact ⟨ha, by rw [hb]; rfl⟩
  · have h1' : strContains s "." = false := by
      cases hcc : strContains s "."
      · rfl
      · exact absurd hcc h1
    rw [if_pos (by rw [h1']; decide)]
    exact iff_of_false Bool.false_ne_true (fun h => absurd h.1 h1)

/-- C5 (confirmed): the namespace predicate holds exactly when the string
has exactly one dot and each of the two resulting parts is PascalCase and
dot-free; the three spec examples evaluate as claimed and the predicate
is a total function (here also evaluated on the empty string). -/
theorem C5_namespace_pattern_characterization :
    (∀ s : String, is_valid_namespace_pattern s = true ↔
      (countChar '.' s.toList = 1 ∧
       ∀ p ∈ pySplit s '.', is_pascal_case p = true ∧ '.' ∉ p.toList)) ∧
    is_valid_namespace_pattern "Microsoft.Compute" = true ∧
    is_valid_namespace_pattern "microsoft.compute" = false ∧
    is_valid_namespace_pattern "Microsoft.Compute.Extra" = false ∧
    is_valid_namespace_pattern "" = false := by
  refine ⟨?_, by decide, by decide, by decide, by decide⟩
  intro s
  rw [namespace_pattern_code_iff]
  have hsplit : (pySplit s '.').length = countChar '.' s.toList + 1 := by
    unfold pySplit; rw [List.length_map, length_splitOnChar]
  have hdotp : ∀ p : String, strContains p "." = false ↔ '.' ∉ p.toList := by
    intro p
    unfold strContains
    rw [decide_eq_false_iff_not]
    constructor
    · intro h hm; exact h ((singleton_infix_iff_mem '.' p.toList).mpr hm)
    · intro h hm; exact h ((singleton_infix_iff_mem '.' p.toList).mp hm)
  constructor
  · rintro ⟨h1, h2, h3⟩
    exact ⟨by omega, fun p hp => ⟨(h3 p hp).1, (hdotp p).mp (h3 p hp).2⟩⟩
  · rintro ⟨h1, h2⟩
    refine ⟨?_, by omega, fun p hp => ⟨(h2 p hp).1, (hdotp p).mpr (h2 p hp).2⟩⟩
    unfold strContains
    rw [decide_eq_true_eq]
    exact (singleton_infix_iff_mem '.' s.toList).mpr
      ((mem_iff_countChar_pos '.' s.toList).mpr (by omega))

/-- Match attempt of `([^/]+)/` directly after a matched
`/(stable|preview)/`: a non-empty run of characters other than `/`
followed by a `/`, returning the run. -/
def versionSeg (r : List Char) : Option (List Char) :=
  let seg := r.takeWhile fun c => !(c == '/')
  if seg.isEmpty then none
  else
    match r.drop seg.length with
    | '/' :: _ => some seg
    | _ => none

/-- Match attempt of the pattern `/(stable|preview)/([^/]+)/` anchored at
the start of `l`, returning the captured group. -/
def versionAt (l : List Char) : Option (List Char) :=
  if "/stable/".toList <+: l then versionSeg (l.drop 8)
  else if "/preview/".toList <+: l then versionSeg (l.drop 9)
  else none

/-- Model of the `re.search` of the pattern on line 311: the leftmost
match of the pattern, returning the second capture group. -/
def extractVersionChars : List Char → Option (List Char)
  | [] => none
  | c :: cs =>
    match versionAt (c :: cs) with
    | some v => some v
    | none => extractVersionChars cs

/-- API-version extraction from one `input-file` entry (lines 308-314). -/
def extract_api_version (input_file : String) : Option String :=
  (extractVersionChars input_file.toList).map ofChars

/-- The per-document core of `check_version_uniform_issues`
(lines 294-320): given the `input-file` entries parsed from the default
tag's block, collect the distinct extracted version tokens and flag the
document when there is more than one. -/
def check_block_version_uniform (input_files : List String) : Bool :=
  decide (1 < ((input_files.filterMap extract_api_version).dedup).length)

example : extract_api_version "Microsoft.Contoso/stable/2021-01-01/contoso.json" =
    some "2021-01-01" := by decide
example : extract_api_version "preview/2023-01-01-preview/a.json" = none := by decide
example : extract_api_version "a/preview/2023-01-01-preview/a.json" =
    some "2023-01-01-preview" := by decide

/-- A list has more than one distinct element after deduplication exactly
when it contains two different elements. -/
theorem one_lt_dedup_length_iff {α : Type} [DecidableEq α] (l : List α) :
    1 < l.dedup.length ↔ ∃ a b, a ∈ l ∧ b ∈ l ∧ a ≠ b := by
  constructor
  · intro h
    rcases hd : l.dedup with _ | ⟨a, _ | ⟨b, t⟩⟩
    · rw [hd] at h; simp at h
    · rw [hd] at h; simp at h
    · have nd := l.nodup_dedup
      rw [hd] at nd
      have hab : a ≠ b := by
        intro e
        exact (List.nodup_cons.mp nd).1 (e ▸ List.mem_cons_self b t)
      have ha : a ∈ l := List.mem_dedup.mp (by rw [hd]; exact List.mem_cons_self a _)
      have hb : b ∈ l := List.mem_dedup.mp
        (by rw [hd]; exact List.mem_cons_of_mem a (List.mem_cons_self b t))
      exact ⟨a, b, ha, hb, hab⟩
  · rintro ⟨a, b, ha, hb, hab⟩
    have ha' : a ∈ l.dedup := List.mem_dedup.mpr ha
    have hb' : b ∈ l.dedup := List.mem_dedup.mpr hb
    rcases hd : l.dedup with _ | ⟨x, _ | ⟨y, t⟩⟩
    · rw [hd] at ha'; exact absurd ha' (List.not_mem_nil a)
    · rw [hd] at ha' hb'
      rw [List.mem_singleton.mp ha', List.mem_singleton.mp hb'] at hab
      exact absurd rfl hab
    · simp

/-- C6 (confirmed): a parsed default-tag block is flagged exactly when
its input-file entries yield two different version-folder tokens under
the `/(stable|preview)/token/` extraction; a block referencing
`stable/2021-01-01` and `stable/2022-02-02` is flagged, and one
referencing only `stable/2021-01-01` twice is not. -/
theorem C6_version_uniform_flag :
    (∀ input_files : List String,
      check_block_version_uniform input_files = true ↔
        ∃ v w, v ∈ input_files.filterMap extract_api_version ∧
          w ∈ input_files.filterMap extract_api_version ∧ v ≠ w) ∧
    check_block_version_uniform
      ["Microsoft.Contoso/stable/2021-01-01/contoso.json",
       "Microsoft.Contoso/stable/2022-02-02/contoso.json"] = true ∧
    check_block_version_uniform
      ["Microsoft.Contoso/stable/2021-01-01/a.json",
       "Microsoft.Contoso/stable/2021-01-01/b.json"] = false := by
  refine ⟨?_, by decide, by decide⟩
  intro input_files
  unfold check_block_version_uniform
  rw [decide_eq_true_eq]
  exact one_lt_dedup_length_iff _

/-- Resolution of the build-configuration document path (lines 226-231):
`resource-manager/readme.md` is preferred, `resource-manager/README.md`
is the fallback; the input is the content of each candidate file when it
exists. -/
def resolve_rm_readme (readme_lower readme_upper : Option String) : Option String :=
  match readme_lower with
  | some content => some content
  | none => readme_upper

/-- Source function `is_rpaas_service` (lines 224-242): true when the resolved document
exists and its text contains `openapi-subtype:` (case-sensitively) and
`rpaas` after lower-casing the content. -/
def is_rpaas_service (readme_lower readme_upper : Option String) : Bool :=
  match resolve_rm_readme readme_lower readme_upper with
  | none => false
  | some content =>
    strContains content "openapi-subtype:" && strContains (pyLower content) "rpaas"

/-- C8 (amended): the RPaaS flag is true exactly when a resource-manager
build-configuration document exists and its text contains
`openapi-subtype:` case-sensitively and `rpaas` case-insensitively. -/
theorem C8_amended_rpaas_flag (readme_lower readme_upper : Option String) :
    is_rpaas_service readme_lower readme_upper = true ↔
      ∃ content, resolve_rm_readme readme_lower readme_upper = some content ∧
        "openapi-subtype:".toList <:+: content.toList ∧
        "rpaas".toList <:+: (pyLower content).toList := by
  cases readme_lower with
  | some c =>
    simp [is_rpaas_service, resolve_rm_readme, strContains, Bool.and_eq_true,
      decide_eq_true_eq]
  | none =>
    cases readme_upper with
    | none => simp [is_rpaas_service, resolve_rm_readme]
    | some c =>
      simp [is_rpaas_service, resolve_rm_readme, strContains, Bool.and_eq_true,
        decide_eq_true_eq]

/-- C8 counterexample: a document whose text is `OPENAPI-SUBTYPE: rpaas`
contains both marker substrings case-insensitively, yet the flag is
false, because `openapi-subtype:` is matched against the original text. -/
theorem C8_counterexample :
    resolve_rm_readme (some "OPENAPI-SUBTYPE: rpaas") none = some "OPENAPI-SUBTYPE: rpaas" ∧
    "openapi-subtype:".toList <:+: (pyLower "OPENAPI-SUBTYPE: rpaas").toList ∧
    "rpaas".toList <:+: (pyLower "OPENAPI-SUBTYPE: rpaas").toList ∧
    is_rpaas_service (some "OPENAPI-SUBTYPE: rpaas") none = false := by decide

/-- One directory of an organization subtree, as seen by `os.walk`:
its path relative to the organization root (`""` for the root itself,
slash-separated below it) and the names of the plain files it contains.
An organization's tree is a list of such entries. -/
structure DirEntry where
  rel : String
  files : List String

/-- Full path of a directory entry, as built by `os.path.join` chains
starting from the organization path. -/
def dirFullPath (orgPath : String) (e : DirEntry) : String :=
  if e.rel = "" then orgPath else orgPath ++ "/" ++ e.rel

/-- The directories an `os.walk` with the script's pruning
`dirs[:] = [d for d in dirs if d.lower() != 'examples']` visits: those
with no path component below the root whose lower-casing is
`examples`. -/
def prunedEntries (entries : List DirEntry) : List DirEntry :=
  entries.filter fun e => (pySplit e.rel '/').all fun c => !(pyLower c == "examples")

/-- Line 342: the directory holds a `tspconfig.yaml` or `main.tsp`. -/
def has_marker_files (e : DirEntry) : Bool :=
  e.files.contains "tspconfig.yaml" || e.files.contains "main.tsp"

/-- TypeSpec project roots of an organization (lines 337-343). -/
def typespec_projects (orgPath : String) (entries : List DirEntry) : List String :=
  (prunedEntries entries).filterMap fun e =>
    if has_marker_files e then some (dirFullPath orgPath e) else none

/-- Whether `e.rel` is the walk root `rootRel` or lies below it. -/
def underDir (rootRel e : String) : Bool :=
  rootRel == e ||
    (if rootRel = "" then true else decide ((rootRel ++ "/").toList <+: e.toList))

/-- Lines 378-391 (also 427-437, 459-469): the branch rooted at `rootRel`
contains, outside pruned `examples` directories, a `.json` file whose
lower-cased full path does not contain `examples`. -/
def branch_has_swagger (orgPath : String) (entries : List DirEntry) (rootRel : String) :
    Bool :=
  (prunedEntries entries).any fun e =>
    underDir rootRel e.rel &&
      e.files.any fun f =>
        pyEndsWith f ".json" &&
          !(strContains (pyLower (dirFullPath orgPath e ++ "/" ++ f)) "examples")

/-- Swagger `stable`/`preview` version folders (lines 371-394). -/
def stable_preview_swagger_folders (orgPath : String) (entries : List DirEntry) :
    List String :=
  (prunedEntries entries).filterMap fun e =>
    if (pyLower (basename (dirFullPath orgPath e)) == "stable" ||
        pyLower (basename (dirFullPath orgPath e)) == "preview") &&
       branch_has_swagger orgPath entries e.rel
    then some (dirFullPath orgPath e) else none

/-- The candidate folders put through the compliance check
(lines 362-394): TypeSpec project roots, then qualifying stable/preview
folders. -/
def all_folders (orgPath : String) (entries : List DirEntry) : List String :=
  typespec_projects orgPath entries ++ stable_preview_swagger_folders orgPath entries

/-- The `os.path.exists` fact used inside the compliance check for a
folder of the organization. -/
def folder_has_typespec (orgPath : String) (entries : List DirEntry) (folder : String) :
    Bool :=
  entries.any fun e => dirFullPath orgPath e == folder && has_marker_files e

/-- The non-compliant folders with their reasons (lines 396-402). -/
def non_compliant_folders (orgPath spec_base_path : String) (entries : List DirEntry) :
    List (String × String) :=
  (all_folders orgPath entries).filterMap fun folder =>
    let verdict := check_folder_structure_v2_compliance folder spec_base_path
      (folder_has_typespec orgPath entries folder)
    if verdict.1 then none else some (folder, verdict.2)

/-- Line 411: the organization is fully compliant when it has no
non-compliant folder and at least one candidate folder. -/
def org_fully_compliant (orgPath spec_base_path : String) (entries : List DirEntry) :
    Bool :=
  decide ((non_compliant_folders orgPath spec_base_path entries).length = 0) &&
    decide (0 < (all_folders orgPath entries).length)

/-- Management-plane TypeSpec projects (lines 353-357). -/
def mgmt_typespec_projects (orgPath : String) (entries : List DirEntry) : List String :=
  (typespec_projects orgPath entries).filter fun p => is_management_plane p

/-- Data-plane TypeSpec projects (lines 353-357). -/
def data_typespec_projects (orgPath : String) (entries : List DirEntry) : List String :=
  (typespec_projects orgPath entries).filter fun p => !(is_management_plane p)

/-- Distinct parents of management-plane version folders (lines 418-442):
stable/preview directories whose full path contains `resource-manager`
and whose branch holds swagger files, collected as a set of parent
directories. -/
def mgmt_stable_preview_parents (orgPath : String) (entries : List DirEntry) :
    List String :=
  ((prunedEntries entries).filterMap fun e =>
    if (pyLower (basename (dirFullPath orgPath e)) == "stable" ||
        pyLower (basename (dirFullPath orgPath e)) == "preview") &&
       strContains (dirFullPath orgPath e) "resource-manager" &&
       branch_has_swagger orgPath entries e.rel
    then some (dirname (dirFullPath orgPath e)) else none).dedup

/-- Distinct parents of data-plane version folders (lines 450-474). -/
def data_stable_preview_parents (orgPath : String) (entries : List DirEntry) :
    List String :=
  ((prunedEntries entries).filterMap fun e =>
    if (pyLower (basename (dirFullPath orgPath e)) == "stable" ||
        pyLower (basename (dirFullPath orgPath e)) == "preview") &&
       strContains (dirFullPath orgPath e) "data-plane" &&
       branch_has_swagger orgPath entries e.rel
    then some (dirname (dirFullPath orgPath e)) else none).dedup

/-- Source computation `is_simple_structure` (lines 413-478): per plane, when the plane has
TypeSpec projects, the number of distinct version-folder parents must
equal the number of that plane's projects. -/
def is_simple_structure (orgPath : String) (entries : List DirEntry) : Bool :=
  (if 0 < (mgmt_typespec_projects orgPath entries).length then
    decide ((mgmt_stable_preview_parents orgPath entries).length =
      (mgmt_typespec_projects orgPath entries).length)
  else true) &&
  (if 0 < (data_typespec_projects orgPath entries).length then
    decide ((data_stable_preview_parents orgPath entries).length =
      (data_typespec_projects orgPath entries).length)
  else true)

/-- An organization with one management-plane TypeSpec project and one
corresponding version-folder parent. -/
def simpleOrgEntries : List DirEntry :=
  [⟨"", []⟩,
   ⟨"resource-manager", []⟩,
   ⟨"resource-manager/Microsoft.Contoso", []⟩,
   ⟨"resource-manager/Microsoft.Contoso/widgets", ["tspconfig.yaml"]⟩,
   ⟨"resource-manager/Microsoft.Contoso/widgets/stable", []⟩,
   ⟨"resource-manager/Microsoft.Contoso/widgets/stable/2021-01-01", ["widgets.json"]⟩]

/-- An organization with two management-plane TypeSpec projects but
three distinct version-folder parents. -/
def complexOrgEntries : List DirEntry :=
  [⟨"", []⟩,
   ⟨"resource-manager", []⟩,
   ⟨"resource-manager/Microsoft.Fabrikam", []⟩,
   ⟨"resource-manager/Microsoft.Fabrikam/widgets", ["tspconfig.yaml"]⟩,
   ⟨"resource-manager/Microsoft.Fabrikam/widgets/stable", []⟩,
   ⟨"resource-manager/Microsoft.Fabrikam/widgets/stable/2021-01-01", ["w.json"]⟩,
   ⟨"resource-manager/Microsoft.Fabrikam/gadgets", ["main.tsp"]⟩,
   ⟨"resource-manager/Microsoft.Fabrikam/gadgets/preview", []⟩,
   ⟨"resource-manager/Microsoft.Fabrikam/gadgets/preview/2021-02-01-preview", ["g.json"]⟩,
   ⟨"resource-manager/Microsoft.Fabrikam/legacy", []⟩,
   ⟨"resource-manager/Microsoft.Fabrikam/legacy/stable", []⟩,
   ⟨"resource-manager/Microsoft.Fabrikam/legacy/stable/2020-01-01", ["l.json"]⟩]

/-- Per-plane reading of the simple-structure test. -/
theorem simple_plane_iff (projects parents : List String) :
    ((if 0 < projects.length then decide (parents.length = projects.length) else true)
        = true) ↔
      (projects = [] ∨ parents.length = projects.length) := by
  by_cases hm : projects = []
  · rw [if_neg (by rw [hm]; simp)]
    exact iff_of_true rfl (Or.inl hm)
  · rw [if_pos (List.length_pos.mpr hm), decide_eq_true_eq]
    constructor
    · exact Or.inr
    · rintro (h | h)
      · exact absurd h hm
      · exact h

set_option maxRecDepth 40000 in
/-- C7 (confirmed): the simple-structure flag holds exactly when, for
each plane independently, the organization has no TypeSpec project on
that plane or the number of distinct version-folder parents equals the
number of that plane's projects; one project with one parent gives true,
two projects with three parents give false. -/
theorem C7_simple_structure_flag :
    (∀ (orgPath : String) (entries : List DirEntry),
      is_simple_structure orgPath entries = true ↔
        ((mgmt_typespec_projects orgPath entries = [] ∨
          (mgmt_stable_preview_parents orgPath entries).length =
            (mgmt_typespec_projects orgPath entries).length) ∧
         (data_typespec_projects orgPath entries = [] ∨
          (data_stable_preview_parents orgPath entries).length =
            (data_typespec_projects orgPath entries).length))) ∧
    (mgmt_typespec_projects "specification/contoso" simpleOrgEntries).length = 1 ∧
    (mgmt_stable_preview_parents "specification/contoso" simpleOrgEntries).length = 1 ∧
    is_simple_structure "specification/contoso" simpleOrgEntries = true ∧
    (mgmt_typespec_projects "specification/fabrikam" complexOrgEntries).length = 2 ∧
    (mgmt_stable_preview_parents "specification/fabrikam" complexOrgEntries).length = 3 ∧
    is_simple_structure "specification/fabrikam" complexOrgEntries = false := by
  refine ⟨?_, by decide, by decide, by decide, by decide, by decide, by decide⟩
  intro orgPath entries
  unfold is_simple_structure
  rw [Bool.and_eq_true, simple_plane_iff, simple_plane_iff]

/-- C10 (confirmed): full compliance of an organization requires a
non-empty candidate folder set besides the absence of non-compliant
folders, so an organization with no candidate folders is not fully
compliant even though it has zero non-compliant folders. -/
theorem C10_fully_compliant_requires_folders :
    (∀ (orgPath spec_base_path : String) (entries : List DirEntry),
      org_fully_compliant orgPath spec_base_path entries = true ↔
        (non_compliant_folders orgPath spec_base_path entries = [] ∧
         all_folders orgPath entries ≠ [])) ∧
    (∀ (orgPath spec_base_path : String) (entries : List DirEntry),
      all_folders orgPath entries = [] →
        org_fully_compliant orgPath spec_base_path entries = false ∧
        non_compliant_folders orgPath spec_base_path entries = []) := by
  constructor
  · intro orgPath spec_base_path entries
    unfold org_fully_compliant
    rw [Bool.and_eq_true, decide_eq_true_eq, decide_eq_true_eq]
    constructor
    · rintro ⟨h1, h2⟩
      refine ⟨List.length_eq_zero.mp h1, fun he => ?_⟩
      rw [he] at h2
      simp at h2
    · rintro ⟨h1, h2⟩
      exact ⟨by rw [h1]; rfl, List.length_pos.mpr h2⟩
  · intro orgPath spec_base_path entries h
    have hnc : non_compliant_folders orgPath spec_base_path entries = [] := by
      unfold non_compliant_folders
      rw [h]
      rfl
    refine ⟨?_, hnc⟩
    unfold org_fully_compliant
    rw [h]
    simp

/-- C10 witness: an organization whose only directory is its bare root
has no candidate folders and is reported not fully compliant. -/
theorem C10_witness :
    all_folders "specification/contoso" [⟨"", []⟩] = [] ∧
    org_fully_compliant "specification/contoso" "specification" [⟨"", []⟩] = false ∧
    non_compliant_folders "specification/contoso" "specification" [⟨"", []⟩] = [] :=
  ⟨rfl,
   (C10_fully_compliant_requires_folders.2 "specification/contoso" "specification"
      [⟨"", []⟩] rfl).1,
   (C10_fully_compliant_requires_folders.2 "specification/contoso" "specification"
      [⟨"", []⟩] rfl).2⟩

/-- The per-organization record assembled by `analyze_organization`
(lines 480-508), restricted to its scalar and verdict fields plus the
`error` field the driver attaches to placeholder records. -/
structure OrgRecord where
  organization : String
  total_typespec_projects : Nat
  management_plane_typespec_projects : Nat
  data_plane_typespec_projects : Nat
  total_swagger_files : Nat
  management_plane_swagger_files : Nat
  data_plane_swagger_files : Nat
  total_folders : Nat
  compliant_folders : Nat
  non_compliant_folders : Nat
  org_fully_compliant : Bool
  is_simple_structure : Bool
  non_compliant_details : List (String × String)
  has_data_plane_swagger : Bool
  readme_count_in_rm : Nat
  is_rpaas_service : Bool
  has_version_uniform_issue : Bool
  problematic_readmes : List String
  error : Option String

/-- The placeholder record the driver substitutes for a failed
organization (lines 533-564): the organization name, all-zero counts,
default flag values, and the error text. -/
def placeholder_record (org_name err : String) : OrgRecord :=
  OrgRecord.mk org_name 0 0 0 0 0 0 0 0 0 false true [] false 0 false false [] (some err)

/-- The driver loop of `main` (lines 524-564): analysing an organization
either yields its record or raises, in which case the placeholder record
is appended and the run continues with the next organization. -/
def run_analyses (analyze : String → Except String OrgRecord) (orgs : List String) :
    List OrgRecord :=
  orgs.map fun org_name =>
    match analyze org_name with
    | Except.ok r => r
    | Except.error e => placeholder_record org_name e

/-- C9 (confirmed): when analysing one organization raises, the driver
records the placeholder record carrying that organization's name, the
all-zero/default counts and the error text, in that organization's
position, and still processes every other organization: no
per-organization exception terminates the run. -/
theorem C9_driver_error_handling (analyze : String → Except String OrgRecord)
    (pre post : List String) (org_name err : String)
    (h : analyze org_name = Except.error err) :
    run_analyses analyze (pre ++ org_name :: post) =
      run_analyses analyze pre ++
        placeholder_record org_name err :: run_analyses analyze post ∧
    (run_analyses analyze (pre ++ org_name :: post)).length =
      pre.length + 1 + post.length ∧
    (placeholder_record org_name err).organization = org_name ∧
    (placeholder_record org_name err).error = some err ∧
    (placeholder_record org_name err).total_typespec_projects = 0 ∧
    (placeholder_record org_name err).total_folders = 0 ∧
    (placeholder_record org_name err).org_fully_compliant = false ∧
    (placeholder_record org_name err).is_simple_structure = true := by
  refine ⟨?_, ?_, rfl, rfl, rfl, rfl, rfl, rfl⟩
  · unfold run_analyses
    rw [List.map_append, List.map_cons, h]
  · unfold run_analyses
    rw [List.length_map, List.length_append, List.length_cons]
    omega

/-- C9 witness: a concrete run in which the middle organization's
analysis raises and the other organizations are still analysed. -/
theorem C9_witness :
    run_analyses (fun _ => Except.error "boom") (["contoso"] ++ "bados" :: ["fabrikam"]) =
      run_analyses (fun _ => Except.error "boom") ["contoso"] ++
        placeholder_record "bados" "boom" ::
          run_analyses (fun _ => Except.error "boom") ["fabrikam"] ∧
    (run_analyses (fun _ => Except.error "boom")
      (["contoso"] ++ "bados" :: ["fabrikam"])).length = 3 :=
  ⟨(C9_driver_error_handling (fun _ => Except.error "boom") ["contoso"] ["fabrikam"]
      "bados" "boom" rfl).1,
   (C9_driver_error_handling (fun _ => Except.error "boom") ["contoso"] ["fabrikam"]
      "bados" "boom" rfl).2.1⟩
